import Mathlib

/-!
Verification development for the ISREALAI-AUTHENTICATION repository.

Shallow embedding of the parts of the code base the claims concern:
token issuance and verification (`app/utils/tokens.py`,
`app/services/auth/token_service.py`), authentication
(`app/services/auth/auth_service.py`), profile updates
(`app/routes/profile/account.py`, `app/services/user/user_service.py`),
email verification (`app/routes/auth/verify.py`), the subscription model
(`app/models/subscription.py`), password validators
(`app/utils/validators.py`), email sending (`app/utils/email.py`) and the
safe-render helper (`app/utils/decorators.py`).

Conventions: `datetime.utcnow()` values are modelled as `Int` seconds;
`timedelta(days = d)` is `d * 86400` seconds.  The itsdangerous
`URLSafeTimedSerializer` is a third-party cryptographic boundary and is
modelled abstractly: a signed token records the signing secret, the salt,
the payload and the issue time, plus an `intact` flag that is `false` for
any token whose signature does not verify (tampered or forged tokens).
`loads` rejects a token whose signature does not verify (wrong secret,
wrong salt, or not intact) with `badSignature`, and an intact token whose
age exceeds `max_age` with `signatureExpired`, mirroring itsdangerous.
-/

namespace IsrealAI

/-- Abstract model of an itsdangerous signed token carrying payload type `α`. -/
structure SignedToken (α : Type) where
  secret : String
  salt : String
  payload : α
  issuedAt : Int
  intact : Bool
deriving DecidableEq, Repr

/-- The two failure modes of `URLSafeTimedSerializer.loads`. -/
inductive LoadError where
  | badSignature
  | signatureExpired
deriving DecidableEq, Repr

/-- Model of `URLSafeTimedSerializer(secret, salt).dumps(payload)` at time `now`. -/
def serializer_dumps {α : Type} (secret salt : String) (payload : α) (now : Int) :
    SignedToken α :=
  { secret := secret, salt := salt, payload := payload, issuedAt := now, intact := true }

/-- Model of `URLSafeTimedSerializer(secret, salt).loads(token, max_age)` at time `now`:
signature is checked first (`BadSignature`), then the age bound
(`SignatureExpired` when `age > max_age`). -/
def serializer_loads {α : Type} (secret salt : String) (tok : SignedToken α)
    (max_age : Int) (now : Int) : Except LoadError α :=
  if tok.intact = true ∧ tok.secret = secret ∧ tok.salt = salt then
    if now - tok.issuedAt > max_age then .error .signatureExpired
    else .ok tok.payload
  else .error .badSignature

/-- The Flask app configuration keys read by the token code
(`current_app.config.get(...)`); `none` means the key is unset and the
source-side default applies. -/
structure TokenConfig where
  secret_key : String
  security_salt : Option String
  token_expiration_seconds : Option Int
  confirmation_token_expires : Option Int
  reset_token_expires : Option Int
deriving DecidableEq, Repr

/-- `get_serializer` in `app/utils/tokens.py`: salt from config key
SECURITY_SALT with default literal "isrealai-token-salt". -/
def get_serializer_salt (cfg : TokenConfig) : String :=
  cfg.security_salt.getD "isrealai-token-salt"

/-- `get_expiration` in `app/utils/tokens.py`: config key
TOKEN_EXPIRATION_SECONDS with default 3600. -/
def get_expiration (cfg : TokenConfig) : Int :=
  cfg.token_expiration_seconds.getD 3600

/-- The payload dict built by `generate_token`: a context tag and a value. -/
structure CtxPayload where
  ctx : String
  val : String
deriving DecidableEq, Repr

/-- `generate_token(data, context)` in `app/utils/tokens.py`, issued at `now`. -/
def generate_token (cfg : TokenConfig) (data : String) (context : String) (now : Int) :
    SignedToken CtxPayload :=
  serializer_dumps cfg.secret_key (get_serializer_salt cfg)
    { ctx := context, val := data } now

/-- `verify_token(token, context, max_age)` in `app/utils/tokens.py` at time `now`:
loads with `max_age` (default: `get_expiration`), requires an exact context
match, returns the value on success and `none` on any failure. -/
def verify_token (cfg : TokenConfig) (tok : SignedToken CtxPayload)
    (context : String) (max_age : Option Int) (now : Int) : Option String :=
  let expiration := max_age.getD (get_expiration cfg)
  match serializer_loads cfg.secret_key (get_serializer_salt cfg) tok expiration now with
  | .ok payload => if payload.ctx = context then some payload.val else none
  | .error _ => none

/-- `TokenService.SALT_CONFIRM`. -/
def SALT_CONFIRM : String := "email-confirmation"

/-- `TokenService.SALT_RESET`. -/
def SALT_RESET : String := "password-reset"

/-- The payload dict built by the TokenService generators: a user id. -/
structure IdPayload where
  id : Int
deriving DecidableEq, Repr

/-- `TokenService.generate_confirmation_token(user_id)`, issued at `now`. -/
def generate_confirmation_token (cfg : TokenConfig) (user_id : Int) (now : Int) :
    SignedToken IdPayload :=
  serializer_dumps cfg.secret_key SALT_CONFIRM { id := user_id } now

/-- `TokenService.confirm_token(token)` at time `now`: max age from config key
CONFIRMATION_TOKEN_EXPIRES (default 3600 * 24); failures yield `none`. -/
def confirm_token (cfg : TokenConfig) (tok : SignedToken IdPayload) (now : Int) :
    Option Int :=
  match serializer_loads cfg.secret_key SALT_CONFIRM tok
      (cfg.confirmation_token_expires.getD (3600 * 24)) now with
  | .ok d => some d.id
  | .error _ => none

/-- `TokenService.generate_reset_token(user_id)`, issued at `now`. -/
def generate_reset_token (cfg : TokenConfig) (user_id : Int) (now : Int) :
    SignedToken IdPayload :=
  serializer_dumps cfg.secret_key SALT_RESET { id := user_id } now

/-- `TokenService.confirm_reset_token(token)` at time `now`: max age from config
key RESET_TOKEN_EXPIRES (default 3600); failures yield `none`. -/
def confirm_reset_token (cfg : TokenConfig) (tok : SignedToken IdPayload) (now : Int) :
    Option Int :=
  match serializer_loads cfg.secret_key SALT_RESET tok
      (cfg.reset_token_expires.getD 3600) now with
  | .ok d => some d.id
  | .error _ => none

/-- The persisted columns of the `User` model (`app/models/user.py`) that the
claims concern.  `username` is an alias accessor over `name`; the automatic
`created_at` / `updated_at` timestamps are managed by the ORM and omitted. -/
structure User where
  id : Int
  email : String
  name : String
  password_hash : String
  is_email_verified : Bool
  full_name : Option String
  avatar_url : Option String
  bio : Option String
  role : String
  is_active : Bool
  is_deleted : Bool
  last_login : Option Int
deriving DecidableEq, Repr

/-- One row of the append-only `AuditLog` model, as appended by
`AuthService._log_event`. -/
structure AuditLog where
  user_id : Option Int
  event_type : String
  message : String
deriving DecidableEq, Repr

/-- The persistent state `AuthService` reads and writes: the `users` table
and the `audit_logs` table. -/
structure AuthState where
  users : List User
  audit : List AuditLog
deriving DecidableEq, Repr

/-- `AuthService._log_event`: append an `AuditLog` entry and commit. -/
def log_event (st : AuthState) (user_id : Option Int) (event_type message : String) :
    AuthState :=
  { st with audit := st.audit ++ [{ user_id := user_id,
                                    event_type := event_type,
                                    message := message }] }

/-- `User.mark_login`: stamp `last_login` with the current time. -/
def mark_login (u : User) (now : Int) : User :=
  { u with last_login := some now }

/-- Result of `AuthService.authenticate`: the returned user, or the message of
the raised `ValueError`. -/
inductive AuthResult where
  | ok (user : User)
  | error (message : String)
deriving DecidableEq, Repr

/-- `AuthService.authenticate(email, password, record_login)` at time `now`.
`bcrypt_check hash pwd` models the third-party
`bcrypt.check_password_hash` boundary (`User.check_password`).  Lookup is
`User.query.filter_by(email=email).first()`; a missing user or a failed
password check raise the same `ValueError("Invalid email or password.")`;
an inactive or soft-deleted account raises
`ValueError("Account inactive or deleted.")`; otherwise, when
`record_login` is set, `last_login` is stamped and a "login" audit entry is
appended, and the (possibly stamped) user is returned. -/
def authenticate (bcrypt_check : String → String → Bool) (st : AuthState)
    (email password : String) (record_login : Bool) (now : Int) :
    AuthResult × AuthState :=
  match st.users.find? (fun u => u.email == email) with
  | none => (.error "Invalid email or password.", st)
  | some user =>
    if bcrypt_check user.password_hash password = false then
      (.error "Invalid email or password.", st)
    else if user.is_active = false ∨ user.is_deleted = true then
      (.error "Account inactive or deleted.", st)
    else if record_login then
      let user' := mark_login user now
      let st' : AuthState :=
        { st with users := st.users.map (fun v => if v.id == user.id then user' else v) }
      (.ok user', log_event st' (some user.id) "login" "User logged in")
    else
      (.ok user, st)

/-- `ALLOWED_UPDATE_FIELDS` in `app/services/user/user_service.py`. -/
def ALLOWED_UPDATE_FIELDS : List String :=
  ["email", "username", "bio", "profile_picture"]

/-- Effect of `setattr(user, field, value)` on the persisted `User` columns,
for the field names that can reach it through the allow-list.  `username`
is the alias setter over `name`.  `profile_picture` is not a mapped column
of the `User` model (the model has `avatar_url`), so assigning it sets only
a transient Python attribute and changes no persisted column. -/
def setattr_user (u : User) (field value : String) : User :=
  if field == "email" then { u with email := value }
  else if field == "username" then { u with name := value }
  else if field == "bio" then { u with bio := some value }
  else u

/-- `UserService.update_user_profile(user_id, **updates)`: look the user up by
id, apply every supplied field that is in `ALLOWED_UPDATE_FIELDS` (in
order), silently skip the rest, and commit.  Returns the success flag and
the committed users table. -/
def update_user_profile (users : List User) (user_id : Int)
    (updates : List (String × String)) : Bool × List User :=
  match users.find? (fun u => u.id == user_id) with
  | none => (false, users)
  | some u =>
    let u' := updates.foldl
      (fun acc fv =>
        if ALLOWED_UPDATE_FIELDS.contains fv.1 then setattr_user acc fv.1 fv.2 else acc)
      u
    (true, users.map (fun v => if v.id == user_id then u' else v))

/-- The update performed by the POST branch of `edit_profile`
(`app/routes/profile/account.py`): it calls
`update_user_profile(current_user.id, full_name=form.full_name.data,
bio=form.bio.data)`. -/
def edit_profile_update (users : List User) (user_id : Int)
    (full_name_data bio_data : String) : Bool × List User :=
  update_user_profile users user_id
    [("full_name", full_name_data), ("bio", bio_data)]

/-- `activate_user_account(user)` in `app/services/user/user_service.py`:
sets `is_active` to true and commits. -/
def activate_user_account (u : User) : User :=
  { u with is_active := true }

/-- The response of `GET /auth/verify-email/<token>`. -/
inductive VerifyResponse where
  | redirect_dashboard
  | redirect_login
  | render_verify_page
deriving DecidableEq, Repr

/-- `verify_email(token)` in `app/routes/auth/verify.py` at time `now`:
an authenticated visitor is redirected; otherwise the token is validated
with `TokenService.confirm_token`, the user is loaded by id, an already
active user short-circuits, and otherwise `activate_user_account` runs.
Returns the response together with the resulting users table. -/
def verify_email (cfg : TokenConfig) (authenticated : Bool)
    (tok : SignedToken IdPayload) (now : Int) (users : List User) :
    VerifyResponse × List User :=
  if authenticated then (.redirect_dashboard, users)
  else
    match confirm_token cfg tok now with
    | none => (.render_verify_page, users)
    | some user_id =>
      match users.find? (fun u => u.id == user_id) with
      | none => (.render_verify_page, users)
      | some u =>
        if u.is_active then (.redirect_login, users)
        else
          (.redirect_login,
           users.map (fun v => if v.id == user_id then activate_user_account v else v))

/-- Status enum of the `Subscription` model. -/
inductive SubStatus where
  | active
  | canceled
  | expired
deriving DecidableEq, Repr

/-- Model of `timedelta(days = d)` in seconds. -/
def timedelta_days (d : Int) : Int := d * 86400

/-- The columns of the `Subscription` model (`app/models/subscription.py`)
the claims concern; dates are `Int` seconds, `end_date`, `renewed_at` and
`canceled_at` are nullable. -/
structure Subscription where
  user_id : Int
  plan_name : String
  plan_tier : String
  price_cents : Int
  status : SubStatus
  start_date : Int
  end_date : Option Int
  renewed_at : Option Int
  canceled_at : Option Int
deriving DecidableEq, Repr

/-- `Subscription.is_active(grace_days)` at time `now`: a non-"active" status
is never active; no end date means always active; otherwise active while
`end_date + timedelta(days=grace_days) >= now`. -/
def Subscription.is_active (s : Subscription) (grace_days : Int) (now : Int) : Bool :=
  if s.status ≠ SubStatus.active then false
  else
    match s.end_date with
    | none => true
    | some e => decide (e + timedelta_days grace_days ≥ now)

/-- `Subscription.is_active()` with the source default `grace_days = 3`. -/
def Subscription.is_active_default (s : Subscription) (now : Int) : Bool :=
  s.is_active 3 now

/-- `Subscription.renew(duration_days)` at time `now`: stamps `renewed_at`,
sets status "active", and sets the end date to `now + duration` when there
is no end date or it is already past, else extends the existing end date. -/
def Subscription.renew (s : Subscription) (duration_days : Int) (now : Int) :
    Subscription :=
  let end_date' : Option Int :=
    match s.end_date with
    | none => some (now + timedelta_days duration_days)
    | some e =>
      if e < now then some (now + timedelta_days duration_days)
      else some (e + timedelta_days duration_days)
  { s with renewed_at := some now, status := SubStatus.active, end_date := end_date' }

/-- ASCII test for the regex class [A-Z] (as in Python's `re` on ASCII text). -/
def isUpperAZ (c : Char) : Bool := 'A' ≤ c ∧ c ≤ 'Z'

/-- ASCII test for the regex class [a-z]. -/
def isLowerAZ (c : Char) : Bool := 'a' ≤ c ∧ c ≤ 'z'

/-- ASCII test for the regex class \d (restricted to ASCII digits; both
validators use the same class, so the restriction is common to both). -/
def isDigit09 (c : Char) : Bool := '0' ≤ c ∧ c ≤ '9'

/-- `validate_password(password)` in `app/utils/validators.py`:
`bool(PASSWORD_REGEX.match(password))` with the pattern
`^(?=.*[A-Z])(?=.*[a-z])(?=.*\d).{8,}$` under Python `re` semantics:
`.` never matches a newline, so each lookahead needs its witness before the
first newline, and `.\x7b8,\x7d$` needs at least 8 newline-free characters
reaching either the end of the string or the position just before a single
trailing newline. -/
def validate_password (password : List Char) : Bool :=
  let beforeNl := password.takeWhile (fun c => c ≠ '\n')
  beforeNl.any isUpperAZ && beforeNl.any isLowerAZ && beforeNl.any isDigit09 &&
    ((password.length ≥ 8 && password.all (fun c => c ≠ '\n')) ||
     (password.length ≥ 9 && password.getLast? == some '\n' &&
      password.dropLast.all (fun c => c ≠ '\n')))

/-- `validate_password_detailed(password)` in `app/utils/validators.py`:
collects violation messages in source order (length, uppercase via
`re.search("[A-Z]")`, lowercase, digit) and returns
`(len(errors) == 0, errors)`. -/
def validate_password_detailed (password : List Char) : Bool × List String :=
  let errors :=
    (if password.length < 8 then ["Password must be at least 8 characters."] else []) ++
    (if password.any isUpperAZ then []
     else ["Must include at least one uppercase letter."]) ++
    (if password.any isLowerAZ then []
     else ["Must include at least one lowercase letter."]) ++
    (if password.any isDigit09 then [] else ["Must include at least one digit."])
  (errors.length == 0, errors)

/-- Outcome of `send_email`: normal return, or the `EmailSendError` message. -/
inductive SendResult where
  | sent
  | delivery_error (message : String)
deriving DecidableEq, Repr

/-- Loop body of `send_email` (`app/utils/email.py`):
`for attempt in range(1, retries + 1)`, with `conn_send k` modelling
whether the transport send of attempt number `k` succeeds.  `attempt` is
the number of the next attempt, the second argument the attempts left.
Returns (attempts made, successful transport sends, outcome); when every
attempt fails, `EmailSendError` is raised naming the recipient. -/
def send_email_loop (conn_send : Nat → Bool) (recipient : String) :
    Nat → Nat → Nat × Nat × SendResult
  | _, 0 => (0, 0, .delivery_error ("Could not send email to " ++ recipient))
  | attempt, n + 1 =>
    if conn_send attempt then (1, 1, .sent)
    else
      let r := send_email_loop conn_send recipient (attempt + 1) n
      (r.1 + 1, r.2.1, r.2.2)

/-- `send_email(msg, retries, delay)`: attempts are numbered from 1 up to
`retries`; the inter-attempt `delay` has no effect on the outcome. -/
def send_email (conn_send : Nat → Bool) (recipient : String) (retries : Nat) :
    Nat × Nat × SendResult :=
  send_email_loop conn_send recipient 1 retries

/-- `send_email` with the source default `retries = 3`. -/
def send_email_default (conn_send : Nat → Bool) (recipient : String) :
    Nat × Nat × SendResult :=
  send_email conn_send recipient 3

/-- Outcome of one `render_template` call: a rendered body, a raised
`TemplateNotFound`, or any other raised rendering error. -/
inductive RenderOutcome where
  | ok (body : List Char)
  | template_missing
  | failure (message : String)
deriving DecidableEq, Repr

/-- Python whitespace for `str.strip()` (ASCII range). -/
def isPySpace (c : Char) : Bool :=
  c == ' ' || c == '\t' || c == '\n' || c == '\r' || c == '\x0b' || c == '\x0c'

/-- Emptiness test `not rendered.strip()` used by `safe_render`. -/
def is_blank (body : List Char) : Bool := body.all isPySpace

/-- Name of the fixed placeholder template. -/
def under_construction : String := "placeholders/under_construction.html"

/-- `safe_render(template_name, **context)` in `app/utils/decorators.py`,
over a deterministic rendering oracle `render_template`: a found,
non-blank body is returned as rendered; a blank body or a missing template
falls back to rendering the placeholder with the same context; any other
rendering error propagates unmodified. -/
def safe_render {γ : Type} (render_template : String → γ → RenderOutcome)
    (template_name : String) (context : γ) : RenderOutcome :=
  match render_template template_name context with
  | .ok rendered =>
    if is_blank rendered then render_template under_construction context
    else .ok rendered
  | .template_missing => render_template under_construction context
  | .failure e => .failure e

/-- Concrete rendering oracle used to exercise `safe_render`: one good page,
one blank page, one erroring page, a present placeholder, everything else
missing. -/
def demo_render : String → Unit → RenderOutcome := fun nm _ =>
  if nm = "good.html" then .ok "body".toList
  else if nm = "blank.html" then .ok "   ".toList
  else if nm = "boom.html" then .failure "boom"
  else if nm = under_construction then .ok "uc".toList
  else .template_missing

/-- Loading a token with the serializer that dumped it checks only the age. -/
theorem serializer_loads_dumps {α : Type} (secret salt : String) (p : α)
    (t max_age now : Int) :
    serializer_loads secret salt (serializer_dumps secret salt p t) max_age now =
      if now - t > max_age then .error .signatureExpired else .ok p := by
  simp [serializer_loads, serializer_dumps]

/-- Loading a token dumped under a different salt always fails the signature. -/
theorem serializer_loads_dumps_wrong_salt {α : Type} {salt1 salt2 : String}
    (h : salt1 ≠ salt2) (secret : String) (p : α) (t max_age now : Int) :
    serializer_loads secret salt2 (serializer_dumps secret salt1 p t) max_age now =
      .error .badSignature := by
  simp [serializer_loads, serializer_dumps, h]

/-- Evaluation of `verify_token` on a token produced by `generate_token`. -/
theorem verify_token_generate (cfg : TokenConfig) (d c c3 : String) (t now1 : Int) :
    verify_token cfg (generate_token cfg d c t) c3 none now1 =
      if now1 - t > get_expiration cfg then none
      else if c = c3 then some d else none := by
  simp only [verify_token, generate_token, Option.getD_none]
  rw [serializer_loads_dumps]
  by_cases hN : now1 - t > get_expiration cfg
  · rw [if_pos hN, if_pos hN]
  · rw [if_neg hN, if_neg hN]

/-- Evaluation of `confirm_token` on a freshly generated confirmation token. -/
theorem confirm_token_generate (cfg : TokenConfig) (uid : Int) (t now1 : Int) :
    confirm_token cfg (generate_confirmation_token cfg uid t) now1 =
      if now1 - t > cfg.confirmation_token_expires.getD (3600 * 24) then none
      else some uid := by
  simp only [confirm_token, generate_confirmation_token]
  rw [serializer_loads_dumps]
  by_cases hN : now1 - t > cfg.confirmation_token_expires.getD (3600 * 24)
  · rw [if_pos hN, if_pos hN]
  · rw [if_neg hN, if_neg hN]

/-- Evaluation of `confirm_reset_token` on a freshly generated reset token. -/
theorem confirm_reset_token_generate (cfg : TokenConfig) (uid : Int) (t now1 : Int) :
    confirm_reset_token cfg (generate_reset_token cfg uid t) now1 =
      if now1 - t > cfg.reset_token_expires.getD 3600 then none
      else some uid := by
  simp only [confirm_reset_token, generate_reset_token]
  rw [serializer_loads_dumps]
  by_cases hN : now1 - t > cfg.reset_token_expires.getD 3600
  · rw [if_pos hN, if_pos hN]
  · rw [if_neg hN, if_neg hN]

/-- C1: for every payload `d` and context `c`, verifying a freshly generated
token under the same context returns `d`; verification returns `none`
(never an exception) under a different context, after the expiry window,
or with an invalid signature; TokenService confirmation/reset pairs
round-trip and expire the same way, and their distinct salts make a token
generated for one purpose never accepted by the other verifier.  The
nonnegativity hypotheses say the configured expiry windows are not
negative (the source defaults 3600, 86400 and 3600 satisfy them). -/
theorem verify_token_roundtrip_context_expiry_signature
    (cfg : TokenConfig) (d c c2 : String) (t now : Int) (uid : Int)
    (hexp : 0 ≤ get_expiration cfg)
    (hconf : 0 ≤ cfg.confirmation_token_expires.getD (3600 * 24))
    (hres : 0 ≤ cfg.reset_token_expires.getD 3600)
    (hc : c2 ≠ c) :
    verify_token cfg (generate_token cfg d c t) c none t = some d ∧
    verify_token cfg (generate_token cfg d c t) c2 none now = none ∧
    (now - t > get_expiration cfg →
      verify_token cfg (generate_token cfg d c t) c none now = none) ∧
    (∀ tok : SignedToken CtxPayload, tok.intact = false →
      verify_token cfg tok c none now = none) ∧
    confirm_token cfg (generate_confirmation_token cfg uid t) t = some uid ∧
    confirm_reset_token cfg (generate_reset_token cfg uid t) t = some uid ∧
    (now - t > cfg.confirmation_token_expires.getD (3600 * 24) →
      confirm_token cfg (generate_confirmation_token cfg uid t) now = none) ∧
    (now - t > cfg.reset_token_expires.getD 3600 →
      confirm_reset_token cfg (generate_reset_token cfg uid t) now = none) ∧
    confirm_token cfg (generate_reset_token cfg uid t) now = none ∧
    confirm_reset_token cfg (generate_confirmation_token cfg uid t) now = none := by
  have hsalt1 : SALT_RESET ≠ SALT_CONFIRM := by decide
  have hsalt2 : SALT_CONFIRM ≠ SALT_RESET := by decide
  refine ⟨?_, ?_, ?_, ?_, ?_, ?_, ?_, ?_, ?_, ?_⟩
  · rw [verify_token_generate, if_neg (by omega), if_pos rfl]
  · rw [verify_token_generate]
    by_cases hN : now - t > get_expiration cfg
    · rw [if_pos hN]
    · rw [if_neg hN, if_neg (Ne.symm hc)]
  · intro h
    rw [verify_token_generate, if_pos h]
  · intro tok htok
    simp [verify_token, serializer_loads, htok]
  · rw [confirm_token_generate, if_neg (by omega)]
  · rw [confirm_reset_token_generate, if_neg (by omega)]
  · intro h
    rw [confirm_token_generate, if_pos h]
  · intro h
    rw [confirm_reset_token_generate, if_pos h]
  · simp only [confirm_token, generate_reset_token]
    rw [serializer_loads_dumps_wrong_salt hsalt1]
  · simp only [confirm_reset_token, generate_confirmation_token]
    rw [serializer_loads_dumps_wrong_salt hsalt2]

/-- Witness for C1 at a concrete configuration, payload and context. -/
theorem verify_token_roundtrip_context_expiry_signature_witness :
    verify_token ⟨"key", none, none, none, none⟩
      (generate_token ⟨"key", none, none, none, none⟩ "data" "ctx" 0) "ctx" none 0
      = some "data" ∧
    verify_token ⟨"key", none, none, none, none⟩
      (generate_token ⟨"key", none, none, none, none⟩ "data" "ctx" 0) "other" none 0
      = none ∧
    confirm_token ⟨"key", none, none, none, none⟩
      (generate_reset_token ⟨"key", none, none, none, none⟩ 7 0) 0 = none := by
  have h := verify_token_roundtrip_context_expiry_signature
    ⟨"key", none, none, none, none⟩ "data" "ctx" "other" 0 0 7
    (by decide) (by decide) (by decide) (by decide)
  exact ⟨h.1, h.2.1, h.2.2.2.2.2.2.2.2.1⟩

/-- C2: `AuthService.authenticate` raises the identical
"Invalid email or password." error both when no user has the email and
when the password check fails; it raises the distinct
"Account inactive or deleted." error when the looked-up account is
inactive or soft-deleted; and on success it returns the authenticated
user (login-stamped when `record_login` is set). -/
theorem authenticate_invalid_credentials_indistinguishable
    (bcrypt_check : String → String → Bool) (st : AuthState)
    (email password : String) (record_login : Bool) (now : Int) :
    (st.users.find? (fun v => v.email == email) = none →
      (authenticate bcrypt_check st email password record_login now).1 =
        .error "Invalid email or password.") ∧
    (∀ u, st.users.find? (fun v => v.email == email) = some u →
      bcrypt_check u.password_hash password = false →
      (authenticate bcrypt_check st email password record_login now).1 =
        .error "Invalid email or password.") ∧
    (∀ u, st.users.find? (fun v => v.email == email) = some u →
      bcrypt_check u.password_hash password = true →
      (u.is_active = false ∨ u.is_deleted = true) →
      (authenticate bcrypt_check st email password record_login now).1 =
        .error "Account inactive or deleted.") ∧
    (AuthResult.error "Account inactive or deleted." ≠
      AuthResult.error "Invalid email or password.") ∧
    (∀ u, st.users.find? (fun v => v.email == email) = some u →
      bcrypt_check u.password_hash password = true →
      u.is_active = true → u.is_deleted = false →
      (authenticate bcrypt_check st email password record_login now).1 =
        .ok (if record_login then mark_login u now else u)) := by
  refine ⟨?_, ?_, ?_, by decide, ?_⟩
  · intro hfind
    simp only [authenticate, hfind]
  · intro u hfind hbc
    simp only [authenticate, hfind]
    rw [if_pos hbc]
  · intro u hfind hbc hinact
    simp only [authenticate, hfind]
    rw [if_neg (by simp [hbc]), if_pos (by simp [hinact])]
  · intro u hfind hbc hact hdel
    simp only [authenticate, hfind]
    rw [if_neg (by simp [hbc]), if_neg (by simp [hact, hdel])]
    by_cases hr : record_login
    · rw [if_pos hr, if_pos hr]
    · rw [if_neg hr, if_neg hr]

/-- Witness for C2 on a concrete two-user table: a missing user and a wrong
password yield the same error value, an inactive account the distinct one,
and correct credentials the user. -/
theorem authenticate_invalid_credentials_indistinguishable_witness :
    (authenticate (fun h p => h == p)
      ⟨[⟨1, "a@x.com", "a", "pw1", false, none, none, none, "user", true, false, none⟩],
       []⟩ "zz@x.com" "pw1" true 0).1 = .error "Invalid email or password." ∧
    (authenticate (fun h p => h == p)
      ⟨[⟨1, "a@x.com", "a", "pw1", false, none, none, none, "user", true, false, none⟩],
       []⟩ "a@x.com" "bad" true 0).1 = .error "Invalid email or password." ∧
    (authenticate (fun h p => h == p)
      ⟨[⟨2, "b@x.com", "b", "pw2", false, none, none, none, "user", false, false, none⟩],
       []⟩ "b@x.com" "pw2" true 0).1 = .error "Account inactive or deleted." ∧
    (authenticate (fun h p => h == p)
      ⟨[⟨1, "a@x.com", "a", "pw1", false, none, none, none, "user", true, false, none⟩],
       []⟩ "a@x.com" "pw1" false 0).1 =
      .ok ⟨1, "a@x.com", "a", "pw1", false, none, none, none, "user", true, false, none⟩ := by
  refine ⟨?_, ?_, ?_, ?_⟩
  · exact (authenticate_invalid_credentials_indistinguishable
      (fun h p => h == p) _ "zz@x.com" "pw1" true 0).1 (by decide)
  · exact (authenticate_invalid_credentials_indistinguishable
      (fun h p => h == p) _ "a@x.com" "bad" true 0).2.1
      ⟨1, "a@x.com", "a", "pw1", false, none, none, none, "user", true, false, none⟩
      (by decide) (by decide)
  · exact (authenticate_invalid_credentials_indistinguishable
      (fun h p => h == p) _ "b@x.com" "pw2" true 0).2.2.1
      ⟨2, "b@x.com", "b", "pw2", false, none, none, none, "user", false, false, none⟩
      (by decide) (by decide) (Or.inl (by decide))
  · exact (authenticate_invalid_credentials_indistinguishable
      (fun h p => h == p) _ "a@x.com" "pw1" false 0).2.2.2.2
      ⟨1, "a@x.com", "a", "pw1", false, none, none, none, "user", true, false, none⟩
      (by decide) (by decide) (by decide) (by decide)

/-- C10: for a stored user that is active, not soft-deleted and whose password
matches, `authenticate` with `record_login = false` returns that user and
leaves the persistent state (users table, hence `last_login`, and the
audit-log table) entirely unchanged. -/
theorem authenticate_no_record_login_frame
    (bcrypt_check : String → String → Bool) (st : AuthState)
    (email password : String) (now : Int) (u : User)
    (hfind : st.users.find? (fun v => v.email == email) = some u)
    (hbc : bcrypt_check u.password_hash password = true)
    (hact : u.is_active = true) (hdel : u.is_deleted = false) :
    authenticate bcrypt_check st email password false now = (.ok u, st) := by
  simp only [authenticate, hfind]
  rw [if_neg (by simp [hbc]), if_neg (by simp [hact, hdel]), if_neg (by simp)]

/-- Witness for C10: a concrete successful non-recording authentication
returns the user and the exact same state. -/
theorem authenticate_no_record_login_frame_witness :
    authenticate (fun h p => h == p)
      ⟨[⟨1, "a@x.com", "a", "pw1", false, none, none, none, "user", true, false,
         some 11⟩],
       [⟨some 1, "login", "User logged in"⟩]⟩ "a@x.com" "pw1" false 99 =
      (.ok ⟨1, "a@x.com", "a", "pw1", false, none, none, none, "user", true, false,
         some 11⟩,
       ⟨[⟨1, "a@x.com", "a", "pw1", false, none, none, none, "user", true, false,
          some 11⟩],
        [⟨some 1, "login", "User logged in"⟩]⟩) := by
  exact authenticate_no_record_login_frame (fun h p => h == p) _ "a@x.com" "pw1" 99
    ⟨1, "a@x.com", "a", "pw1", false, none, none, none, "user", true, false, some 11⟩
    (by decide) (by decide) (by decide) (by decide)

/-- C3 counterexample: a valid profile-edit submission with a new full name
and bio leaves the stored full name unchanged — `full_name` is not in
`ALLOWED_UPDATE_FIELDS`, so `update_user_profile` silently drops it; only
the bio reaches the stored user. -/
theorem edit_profile_full_name_silently_dropped :
    (edit_profile_update
        [⟨1, "a@x.com", "a", "pw", false, some "Old Name", none, some "old bio",
          "user", true, false, none⟩] 1 "New Name" "new bio").2 =
      [⟨1, "a@x.com", "a", "pw", false, some "Old Name", none, some "new bio",
        "user", true, false, none⟩] ∧
    ((edit_profile_update
        [⟨1, "a@x.com", "a", "pw", false, some "Old Name", none, some "old bio",
          "user", true, false, none⟩] 1 "New Name" "new bio").2).map User.full_name ≠
      [some "New Name"] := by
  exact ⟨by decide, by decide⟩

/-- C3 amended: on a valid submission the handler passes the submitted full
name and bio to `UserService.update_user_profile`, which applies only the
allow-listed fields: the stored bio becomes the submitted value while the
full-name update is silently ignored (the stored user changes in no other
way), and any supplied field outside the allow-list is silently ignored. -/
theorem edit_profile_updates_bio_only
    (u : User) (fn b : String) :
    (edit_profile_update [u] u.id fn b).2 = [{ u with bio := some b }] ∧
    (∀ f v, ALLOWED_UPDATE_FIELDS.contains f = false →
      (update_user_profile [u] u.id [(f, v)]).2 = [u]) := by
  constructor
  · simp [edit_profile_update, update_user_profile, setattr_user,
      ALLOWED_UPDATE_FIELDS, List.find?]
  · intro f v hf
    have hf' : ¬ f ∈ ALLOWED_UPDATE_FIELDS := by simpa using hf
    simp [update_user_profile, List.find?, hf']

/-- Witness for C3's amended claim at a concrete user and form data. -/
theorem edit_profile_updates_bio_only_witness :
    (edit_profile_update
        [⟨1, "a@x.com", "a", "pw", false, some "Old Name", none, none,
          "user", true, false, none⟩] 1 "New Name" "new bio").2 =
      [⟨1, "a@x.com", "a", "pw", false, some "Old Name", none, some "new bio",
        "user", true, false, none⟩] ∧
    (update_user_profile
        [⟨1, "a@x.com", "a", "pw", false, some "Old Name", none, none,
          "user", true, false, none⟩] 1 [("full_name", "New Name")]).2 =
      [⟨1, "a@x.com", "a", "pw", false, some "Old Name", none, none,
        "user", true, false, none⟩] := by
  have h := edit_profile_updates_bio_only
    ⟨1, "a@x.com", "a", "pw", false, some "Old Name", none, none,
      "user", true, false, none⟩ "New Name" "new bio"
  exact ⟨h.1, h.2 "full_name" "New Name" (by decide)⟩

/-- Mapping with a pointwise-invariant function after an endomap. -/
theorem map_map_eq_of_fixes {α β : Type} (g : α → α) (f : α → β)
    (h : ∀ a, f (g a) = f a) (l : List α) : (l.map g).map f = l.map f := by
  induction l with
  | nil => rfl
  | cons x xs ih => simp [h x, ih]

/-- A list is pointwise related to its image under an endomap. -/
theorem forall2_map_self {α : Type} (g : α → α) (r : α → α → Prop)
    (h : ∀ a, r a (g a)) (l : List α) : List.Forall₂ r l (l.map g) := by
  induction l with
  | nil => exact .nil
  | cons x xs ih => exact .cons (h x) ih

/-- The users table after `verify_email` is either untouched or the image of
an activation map keyed on the token's user id. -/
theorem verify_email_users_shape (cfg : TokenConfig) (authenticated : Bool)
    (tok : SignedToken IdPayload) (now : Int) (users : List User) :
    (verify_email cfg authenticated tok now users).2 = users ∨
    ∃ uid, (verify_email cfg authenticated tok now users).2 =
      users.map (fun v => if v.id == uid then activate_user_account v else v) := by
  simp only [verify_email]
  split
  · exact Or.inl rfl
  · split
    · exact Or.inl rfl
    · next uid _ =>
      split
      · exact Or.inl rfl
      · split
        · exact Or.inl rfl
        · exact Or.inr ⟨uid, rfl⟩

/-- C4: handling `GET /auth/verify-email/<token>` never changes any user's
`is_email_verified` flag (nor ids), for any token and any visitor; the only
change the handler can make to a user row is setting `is_active` to true. -/
theorem verify_email_never_verifies_email (cfg : TokenConfig)
    (authenticated : Bool) (tok : SignedToken IdPayload) (now : Int)
    (users : List User) :
    ((verify_email cfg authenticated tok now users).2).map
        (fun u => (u.id, u.is_email_verified)) =
      users.map (fun u => (u.id, u.is_email_verified)) ∧
    List.Forall₂ (fun u u' => u' = u ∨ u' = { u with is_active := true })
      users (verify_email cfg authenticated tok now users).2 := by
  rcases verify_email_users_shape cfg authenticated tok now users with h | ⟨uid, h⟩
  · rw [h]
    exact ⟨rfl, List.forall₂_same.2 (fun x _ => Or.inl rfl)⟩
  · rw [h]
    constructor
    · apply map_map_eq_of_fixes
      intro a
      by_cases ha : a.id == uid
      · simp [ha, activate_user_account]
      · simp [ha]
    · apply forall2_map_self
      intro a
      by_cases ha : a.id == uid
      · simp only [ha, if_true]
        exact Or.inr rfl
      · simp only [ha, if_false]
        exact Or.inl rfl

/-- C5: an active subscription whose end date is one day in the past is still
active under the default 3-day grace period but not under a 0-day grace
period; a canceled or expired subscription is never active; an active
subscription without an end date is active for every grace period. -/
theorem subscription_grace_period (s : Subscription) (now : Int) :
    (s.status = SubStatus.active → s.end_date = some (now - timedelta_days 1) →
      s.is_active_default now = true ∧ s.is_active 0 now = false) ∧
    (∀ g, (s.status = SubStatus.canceled ∨ s.status = SubStatus.expired) →
      s.is_active g now = false) ∧
    (∀ g, s.status = SubStatus.active → s.end_date = none →
      s.is_active g now = true) := by
  refine ⟨?_, ?_, ?_⟩
  · intro hs he
    constructor
    · simp only [Subscription.is_active_default, Subscription.is_active, hs, he,
        timedelta_days]
      simp only [ne_eq, not_true_eq_false, if_false, decide_eq_true_eq]
      omega
    · simp only [Subscription.is_active, hs, he, timedelta_days]
      simp only [ne_eq, not_true_eq_false, if_false, decide_eq_false_iff_not, not_le]
      omega
  · intro g hs
    rcases hs with h | h <;> simp [Subscription.is_active, h]
  · intro g hs he
    simp [Subscription.is_active, hs, he]

/-- Witness for C5 at concrete subscriptions and a concrete clock. -/
theorem subscription_grace_period_witness :
    (Subscription.is_active_default
        ⟨1, "pro", "basic", 2999, SubStatus.active, 0, some 913600, none, none⟩
        1000000 = true ∧
      Subscription.is_active
        ⟨1, "pro", "basic", 2999, SubStatus.active, 0, some 913600, none, none⟩
        0 1000000 = false) ∧
    Subscription.is_active
      ⟨1, "pro", "basic", 2999, SubStatus.canceled, 0, some 913600, none, some 5⟩
      3 1000000 = false ∧
    Subscription.is_active
      ⟨1, "pro", "basic", 2999, SubStatus.active, 0, none, none, none⟩
      3 1000000 = true := by
  refine ⟨?_, ?_, ?_⟩
  · exact (subscription_grace_period
      ⟨1, "pro", "basic", 2999, SubStatus.active, 0, some 913600, none, none⟩
      1000000).1 rfl (by decide)
  · exact (subscription_grace_period
      ⟨1, "pro", "basic", 2999, SubStatus.canceled, 0, some 913600, none, some 5⟩
      1000000).2.1 3 (Or.inl rfl)
  · exact (subscription_grace_period
      ⟨1, "pro", "basic", 2999, SubStatus.active, 0, none, none, none⟩
      1000000).2.2 3 rfl rfl

/-- C6: `Subscription.renew` sets the end date to `now + duration_days` when
there is no prior end date or it is already past, extends a still-future
end date by `duration_days` without resetting it, and in all cases sets
status "active" and stamps `renewed_at` with now. -/
theorem subscription_renew_end_date (s : Subscription) (duration_days now : Int) :
    ((s.end_date = none ∨ ∃ e, s.end_date = some e ∧ e < now) →
      (s.renew duration_days now).end_date =
        some (now + timedelta_days duration_days)) ∧
    (∀ e, s.end_date = some e → now < e →
      (s.renew duration_days now).end_date =
        some (e + timedelta_days duration_days)) ∧
    (s.renew duration_days now).status = SubStatus.active ∧
    (s.renew duration_days now).renewed_at = some now := by
  refine ⟨?_, ?_, ?_, ?_⟩
  · rintro (h | ⟨e, he, hlt⟩)
    · simp [Subscription.renew, h]
    · simp [Subscription.renew, he, hlt]
  · intro e he hgt
    have hnlt : ¬ e < now := by omega
    simp [Subscription.renew, he, hnlt]
  · simp [Subscription.renew]
  · simp [Subscription.renew]

/-- Witness for C6: renewing with no prior end date, with a past end date,
and with a future end date, at concrete values. -/
theorem subscription_renew_end_date_witness :
    (Subscription.renew
        ⟨1, "pro", "basic", 2999, SubStatus.expired, 0, none, none, none⟩
        30 1000).end_date = some (1000 + 30 * 86400) ∧
    (Subscription.renew
        ⟨1, "pro", "basic", 2999, SubStatus.expired, 0, some 500, none, none⟩
        30 1000).end_date = some (1000 + 30 * 86400) ∧
    (Subscription.renew
        ⟨1, "pro", "basic", 2999, SubStatus.active, 0, some 2000, none, none⟩
        30 1000).end_date = some (2000 + 30 * 86400) ∧
    (Subscription.renew
        ⟨1, "pro", "basic", 2999, SubStatus.expired, 0, none, none, none⟩
        30 1000).status = SubStatus.active ∧
    (Subscription.renew
        ⟨1, "pro", "basic", 2999, SubStatus.expired, 0, none, none, none⟩
        30 1000).renewed_at = some 1000 := by
  refine ⟨?_, ?_, ?_, ?_, ?_⟩
  · exact (subscription_renew_end_date
      ⟨1, "pro", "basic", 2999, SubStatus.expired, 0, none, none, none⟩
      30 1000).1 (Or.inl rfl)
  · exact (subscription_renew_end_date
      ⟨1, "pro", "basic", 2999, SubStatus.expired, 0, some 500, none, none⟩
      30 1000).1 (Or.inr ⟨500, rfl, by decide⟩)
  · exact (subscription_renew_end_date
      ⟨1, "pro", "basic", 2999, SubStatus.active, 0, some 2000, none, none⟩
      30 1000).2.1 2000 rfl (by decide)
  · exact (subscription_renew_end_date
      ⟨1, "pro", "basic", 2999, SubStatus.expired, 0, none, none, none⟩
      30 1000).2.2.1
  · exact (subscription_renew_end_date
      ⟨1, "pro", "basic", 2999, SubStatus.expired, 0, none, none, none⟩
      30 1000).2.2.2

/-- C7 counterexample: on the 8-character password "Aa1bcde" followed by a
newline, the regex-based `validate_password` rejects (the pattern's `.`
cannot match the newline, so fewer than 8 matchable characters remain)
while `validate_password_detailed` passes with an empty violation list —
the two checkers are not equivalent. -/
theorem validate_password_disagrees_with_detailed :
    validate_password ("Aa1bcde" ++ "\n").toList = false ∧
    (validate_password_detailed ("Aa1bcde" ++ "\n").toList).1 = true ∧
    (validate_password_detailed ("Aa1bcde" ++ "\n").toList).2 = [] ∧
    validate_password ("Aa1bcde" ++ "\n").toList ≠
      (validate_password_detailed ("Aa1bcde" ++ "\n").toList).1 := by
  exact ⟨by decide, by decide, by decide, by decide⟩

/-- Lists all of whose elements satisfy a predicate are their own takeWhile. -/
theorem takeWhile_eq_self_of {α : Type} (p : α → Bool) (l : List α)
    (h : ∀ a ∈ l, p a = true) : l.takeWhile p = l := by
  induction l with
  | nil => rfl
  | cons x xs ih =>
    rw [List.takeWhile_cons, h x (List.mem_cons_self x xs),
      ih (fun a ha => h a (List.mem_cons_of_mem x ha))]
    simp

/-- C7 amended: restricted to passwords containing no newline character,
`validate_password` accepts exactly when `validate_password_detailed`
passes with an empty violation list (the same four conditions: length at
least 8, an uppercase letter, a lowercase letter and a digit). -/
theorem validate_password_iff_detailed_no_newline (password : List Char)
    (hnl : ¬ '\n' ∈ password) :
    (validate_password password = true ↔
      ((validate_password_detailed password).1 = true ∧
        (validate_password_detailed password).2 = [])) := by
  have hmem : ∀ a ∈ password, (fun c => (c ≠ '\n' : Bool)) a = true := by
    intro a ha
    simp only [ne_eq, decide_eq_true_eq]
    intro h
    exact hnl (h ▸ ha)
  have hall : password.all (fun c => (c ≠ '\n' : Bool)) = true :=
    List.all_eq_true.2 hmem
  have htw : password.takeWhile (fun c => (c ≠ '\n' : Bool)) = password :=
    takeWhile_eq_self_of _ password hmem
  have hnl' : ∀ x ∈ password, ¬ x = '\n' := fun x hx h => hnl (h ▸ hx)
  simp only [validate_password, validate_password_detailed, htw]
  by_cases h8 : password.length ≥ 8
  · have h8' : ¬ password.length < 8 := by omega
    by_cases hu : password.any isUpperAZ <;>
      by_cases hl : password.any isLowerAZ <;>
        by_cases hd : password.any isDigit09 <;>
          first
            | (simp [h8, h8', hu, hl, hd, hall]
               exact Or.inl hnl')
            | simp [h8, h8', hu, hl, hd, hall]
  · have h8' : password.length < 8 := by omega
    have h9 : ¬ password.length ≥ 9 := by omega
    simp [h8, h8', h9]

/-- Witness for C7's amended claim: a newline-free accepted password and a
newline-free rejected one, evaluated on both checkers. -/
theorem validate_password_iff_detailed_no_newline_witness :
    (validate_password "Aa1bcdef".toList = true ∧
      (validate_password_detailed "Aa1bcdef".toList).1 = true ∧
      (validate_password_detailed "Aa1bcdef".toList).2 = []) ∧
    (validate_password "aa1bcdef".toList = false ∧
      (validate_password_detailed "aa1bcdef".toList).1 = false) := by
  constructor
  · have h := (validate_password_iff_detailed_no_newline "Aa1bcdef".toList
      (by decide)).1 (by decide)
    exact ⟨by decide, h.1, h.2⟩
  · constructor
    · by_contra hcon
      have hb : validate_password "aa1bcdef".toList = true := by
        revert hcon
        decide
      have h := (validate_password_iff_detailed_no_newline "aa1bcdef".toList
        (by decide)).1 hb
      have : (validate_password_detailed "aa1bcdef".toList).1 = true := h.1
      exact absurd this (by decide)
    · decide

/-- Unfolding equation: a loop with no attempts left raises the error. -/
theorem send_email_loop_zero (conn_send : Nat → Bool) (recipient : String) (a : Nat) :
    send_email_loop conn_send recipient a 0 =
      (0, 0, SendResult.delivery_error ("Could not send email to " ++ recipient)) := rfl

/-- Unfolding equation: a successful attempt returns at once. -/
theorem send_email_loop_succ_true (conn_send : Nat → Bool) (recipient : String)
    (a n : Nat) (h : conn_send a = true) :
    send_email_loop conn_send recipient a (n + 1) = (1, 1, SendResult.sent) := by
  simp [send_email_loop, h]

/-- Unfolding equation: a failed attempt recurses with one more attempt made. -/
theorem send_email_loop_succ_false (conn_send : Nat → Bool) (recipient : String)
    (a n : Nat) (h : conn_send a = false) :
    send_email_loop conn_send recipient a (n + 1) =
      ((send_email_loop conn_send recipient (a + 1) n).1 + 1,
       (send_email_loop conn_send recipient (a + 1) n).2.1,
       (send_email_loop conn_send recipient (a + 1) n).2.2) := by
  simp [send_email_loop, h]

/-- The retry loop makes at most as many attempts as it has left. -/
theorem send_email_loop_attempts_le (conn_send : Nat → Bool) (recipient : String) :
    ∀ n a, (send_email_loop conn_send recipient a n).1 ≤ n := by
  intro n
  induction n with
  | zero =>
    intro a
    rw [send_email_loop_zero]
  | succ n ih =>
    intro a
    cases hc : conn_send a
    · rw [send_email_loop_succ_false conn_send recipient a n hc]
      have := ih (a + 1)
      simp only []
      omega
    · rw [send_email_loop_succ_true conn_send recipient a n hc]
      omega

/-- The retry loop returns normally exactly when some attempt in its range
succeeds. -/
theorem send_email_loop_sent_iff (conn_send : Nat → Bool) (recipient : String) :
    ∀ n a, (send_email_loop conn_send recipient a n).2.2 = SendResult.sent ↔
      ∃ k, a ≤ k ∧ k < a + n ∧ conn_send k = true := by
  intro n
  induction n with
  | zero =>
    intro a
    rw [send_email_loop_zero]
    constructor
    · intro h
      exact absurd h (by simp)
    · rintro ⟨k, h1, h2, _⟩
      omega
  | succ n ih =>
    intro a
    cases hc : conn_send a
    · rw [send_email_loop_succ_false conn_send recipient a n hc]
      rw [show (((send_email_loop conn_send recipient (a + 1) n).1 + 1,
          (send_email_loop conn_send recipient (a + 1) n).2.1,
          (send_email_loop conn_send recipient (a + 1) n).2.2)).2.2 =
          (send_email_loop conn_send recipient (a + 1) n).2.2 from rfl]
      rw [ih (a + 1)]
      constructor
      · rintro ⟨k, h1, h2, h3⟩
        exact ⟨k, by omega, by omega, h3⟩
      · rintro ⟨k, h1, h2, h3⟩
        have hka : k ≠ a := by
          intro heq
          rw [heq, hc] at h3
          exact Bool.false_ne_true h3
        exact ⟨k, by omega, by omega, h3⟩
    · rw [send_email_loop_succ_true conn_send recipient a n hc]
      constructor
      · intro _
        exact ⟨a, le_refl a, by omega, hc⟩
      · intro _
        rfl

/-- On a normal return the loop made exactly one successful transport send,
the attempt it stopped at succeeded, and every earlier attempt failed. -/
theorem send_email_loop_sent_first (conn_send : Nat → Bool) (recipient : String) :
    ∀ n a, (send_email_loop conn_send recipient a n).2.2 = SendResult.sent →
      (send_email_loop conn_send recipient a n).2.1 = 1 ∧
      1 ≤ (send_email_loop conn_send recipient a n).1 ∧
      conn_send (a + (send_email_loop conn_send recipient a n).1 - 1) = true ∧
      ∀ j, a ≤ j → j < a + (send_email_loop conn_send recipient a n).1 - 1 →
        conn_send j = false := by
  intro n
  induction n with
  | zero =>
    intro a h
    rw [send_email_loop_zero] at h
    exact absurd h (by simp)
  | succ n ih =>
    intro a h
    cases hc : conn_send a
    · rw [send_email_loop_succ_false conn_send recipient a n hc] at h ⊢
      simp only [] at h ⊢
      obtain ⟨hs, hone, hcs, hbefore⟩ := ih (a + 1) h
      refine ⟨hs, by omega, ?_, ?_⟩
      · rw [show a + ((send_email_loop conn_send recipient (a + 1) n).1 + 1) - 1 =
            a + 1 + (send_email_loop conn_send recipient (a + 1) n).1 - 1 by omega]
        exact hcs
      · intro j h1 h2
        by_cases hja : j = a
        · rw [hja]
          exact hc
        · exact hbefore j (by omega) (by omega)
    · rw [send_email_loop_succ_true conn_send recipient a n hc]
      refine ⟨rfl, by omega, by simpa using hc, ?_⟩
      intro j h1 h2
      omega

/-- When no attempt succeeds, the loop uses all attempts, performs no
successful send, and raises the delivery error naming the recipient. -/
theorem send_email_loop_all_fail (conn_send : Nat → Bool) (recipient : String) :
    ∀ n a, (∀ k, a ≤ k → k < a + n → conn_send k = false) →
      (send_email_loop conn_send recipient a n).2.2 =
        SendResult.delivery_error ("Could not send email to " ++ recipient) ∧
      (send_email_loop conn_send recipient a n).2.1 = 0 ∧
      (send_email_loop conn_send recipient a n).1 = n := by
  intro n
  induction n with
  | zero =>
    intro a _
    rw [send_email_loop_zero]
    exact ⟨rfl, rfl, rfl⟩
  | succ n ih =>
    intro a hall
    have hc : conn_send a = false := hall a (le_refl a) (by omega)
    have hrest := ih (a + 1) (fun k h1 h2 => hall k (by omega) (by omega))
    rw [send_email_loop_succ_false conn_send recipient a n hc]
    exact ⟨hrest.1, hrest.2.1, by rw [show ((send_email_loop conn_send recipient
      (a + 1) n).1 + 1, (send_email_loop conn_send recipient (a + 1) n).2.1,
      (send_email_loop conn_send recipient (a + 1) n).2.2).1 =
      (send_email_loop conn_send recipient (a + 1) n).1 + 1 from rfl, hrest.2.2]⟩

/-- C8: `send_email` makes at most `retries` attempts; it returns normally
exactly when some attempt between 1 and `retries` succeeds, in which case
it performed exactly one successful transport send and stopped at the
first successful attempt; and when every attempt fails it raises the
dedicated delivery error naming the recipient, after exactly `retries`
attempts and no successful send. -/
theorem send_email_retry_spec (conn_send : Nat → Bool) (recipient : String)
    (retries : Nat) :
    (send_email conn_send recipient retries).1 ≤ retries ∧
    ((send_email conn_send recipient retries).2.2 = SendResult.sent ↔
      ∃ k, 1 ≤ k ∧ k ≤ retries ∧ conn_send k = true) ∧
    ((send_email conn_send recipient retries).2.2 = SendResult.sent →
      (send_email conn_send recipient retries).2.1 = 1 ∧
      conn_send (send_email conn_send recipient retries).1 = true ∧
      ∀ j, 1 ≤ j → j < (send_email conn_send recipient retries).1 →
        conn_send j = false) ∧
    ((∀ k, 1 ≤ k → k ≤ retries → conn_send k = false) →
      (send_email conn_send recipient retries).2.2 =
        SendResult.delivery_error ("Could not send email to " ++ recipient) ∧
      (send_email conn_send recipient retries).2.1 = 0 ∧
      (send_email conn_send recipient retries).1 = retries) := by
  refine ⟨send_email_loop_attempts_le conn_send recipient retries 1, ?_, ?_, ?_⟩
  · rw [send_email, send_email_loop_sent_iff]
    constructor
    · rintro ⟨k, h1, h2, h3⟩
      exact ⟨k, h1, by omega, h3⟩
    · rintro ⟨k, h1, h2, h3⟩
      exact ⟨k, h1, by omega, h3⟩
  · intro h
    simp only [send_email] at h ⊢
    obtain ⟨hs, hone, hcs, hbefore⟩ :=
      send_email_loop_sent_first conn_send recipient retries 1 h
    refine ⟨hs, ?_, ?_⟩
    · rw [show 1 + (send_email_loop conn_send recipient 1 retries).1 - 1 =
          (send_email_loop conn_send recipient 1 retries).1 by omega] at hcs
      exact hcs
    · intro j h1 h2
      exact hbefore j h1 (by omega)
  · intro h
    exact send_email_loop_all_fail conn_send recipient retries 1
      (fun k h1 h2 => h k h1 (by omega))

/-- Witness for C8: with a transport that succeeds on the second attempt the
default three-attempt send returns normally with one successful send after
two attempts, and with a transport that always fails it raises the
delivery error naming the recipient. -/
theorem send_email_retry_spec_witness :
    (send_email (fun k => k == 2) "user@example.com" 3).2.2 = SendResult.sent ∧
    (send_email (fun k => k == 2) "user@example.com" 3).2.1 = 1 ∧
    (send_email (fun k => k == 2) "user@example.com" 3).1 = 2 ∧
    (send_email (fun _ => false) "user@example.com" 3).2.2 =
      SendResult.delivery_error "Could not send email to user@example.com" := by
  have h1 := (send_email_retry_spec (fun k => k == 2) "user@example.com" 3).2.1.2
    ⟨2, by decide, by decide, by decide⟩
  have h2 := ((send_email_retry_spec (fun k => k == 2) "user@example.com" 3).2.2.1 h1).1
  have h3 := ((send_email_retry_spec (fun _ => false) "user@example.com" 3).2.2.2
    (fun k _ _ => rfl)).1
  exact ⟨h1, h2, by decide, h3⟩

/-- C9: `safe_render` returns the normal rendering when the named template
exists and renders to a non-blank body; it returns the rendering of the
fixed placeholder template with the same context when the template is
missing or its rendered body is blank; and any other rendering error
propagates to the caller unmodified. -/
theorem safe_render_fallback_spec {γ : Type}
    (render_template : String → γ → RenderOutcome) (template_name : String)
    (context : γ) :
    (∀ body, render_template template_name context = .ok body →
      is_blank body = false →
      safe_render render_template template_name context = .ok body) ∧
    (∀ body, render_template template_name context = .ok body →
      is_blank body = true →
      safe_render render_template template_name context =
        render_template under_construction context) ∧
    (render_template template_name context = .template_missing →
      safe_render render_template template_name context =
        render_template under_construction context) ∧
    (∀ e, render_template template_name context = .failure e →
      safe_render render_template template_name context = .failure e) := by
  refine ⟨?_, ?_, ?_, ?_⟩
  · intro body h hb
    simp [safe_render, h, hb]
  · intro body h hb
    simp [safe_render, h, hb]
  · intro h
    simp [safe_render, h]
  · intro e h
    simp [safe_render, h]

/-- Witness for C9 on the concrete rendering oracle: non-blank pages render,
blank and missing pages fall back to the placeholder, and other rendering
errors propagate. -/
theorem safe_render_fallback_spec_witness :
    safe_render demo_render "good.html" () = RenderOutcome.ok "body".toList ∧
    safe_render demo_render "blank.html" () = RenderOutcome.ok "uc".toList ∧
    safe_render demo_render "missing.html" () = RenderOutcome.ok "uc".toList ∧
    safe_render demo_render "boom.html" () = RenderOutcome.failure "boom" := by
  refine ⟨?_, ?_, ?_, ?_⟩
  · exact (safe_render_fallback_spec demo_render "good.html" ()).1
      "body".toList (by decide) (by decide)
  · exact ((safe_render_fallback_spec demo_render "blank.html" ()).2.1
      "   ".toList (by decide) (by decide)).trans (by decide)
  · exact ((safe_render_fallback_spec demo_render "missing.html" ()).2.2.1
      (by decide)).trans (by decide)
  · exact (safe_render_fallback_spec demo_render "boom.html" ()).2.2.2
      "boom" (by decide)

end IsrealAI
